import Mathlib

/-!
Shallow embedding of the data-ingestion core of the personal-finance
dashboard (`utils/data_loader.py` and `app.py`).

Modelling conventions:
* A pandas `DataFrame` is a `Frame`: a list of rows plus one presence flag per
  column of interest (column presence is a table-level property in pandas).
* The `Amount` cell of a row is modelled by the outcome of pandas numeric
  coercion (`pd.to_numeric(_, errors=coerce)`): `some q` for a cell that
  coerces to the number `q`, `none` for a cell that coerces to NaN.  With this
  representation the coercion step itself is the identity and `dropna` removes
  exactly the `none` cells, as in the source.
* `Month`, `Type`, `Category`, `Description` cells are modelled by their
  string representation (the source applies `astype(str)` before trimming).
* Numbers are `ℚ` (the source works with pandas numeric values; all claims in
  scope are exact arithmetic).
* Fallible effects (network fetch, file parsing) are modelled as
  `Except String Frame` arguments: the caught-exception branch of the Python
  `try/except` corresponds to the `.error` case.
-/

namespace FinanceDashboard

/-- Python `str.strip()` / pandas `.str.strip()`: remove leading and trailing
whitespace.  Written over the character list so that it evaluates by kernel
reduction. -/
def strTrim (s : String) : String :=
  ⟨((s.data.dropWhile Char.isWhitespace).reverse.dropWhile
      Char.isWhitespace).reverse⟩

/-- Python `str.endswith(suffix)`, written over character lists. -/
def strEndsWith (s suffix : String) : Bool :=
  suffix.data.isSuffixOf s.data

/-- One row of a tabular input.  `typ` embeds the `Type` column (a Lean
keyword).  `amount` is the numeric-coercion outcome of the raw `Amount` cell;
`description` is meaningful only when the owning frame has a `Description`
column. -/
structure RawRow where
  month : String
  typ : String
  category : String
  amount : Option ℚ
  description : String
  deriving Repr, DecidableEq

/-- A pandas DataFrame restricted to the columns the ingestion core reads:
per-column presence flags plus the ordered rows. -/
structure Frame where
  hasMonth : Bool
  hasType : Bool
  hasCategory : Bool
  hasAmount : Bool
  hasDescription : Bool
  rows : List RawRow
  deriving Repr, DecidableEq

/-- `pd.DataFrame()`: no columns, no rows. -/
def emptyFrame : Frame :=
  { hasMonth := false, hasType := false, hasCategory := false,
    hasAmount := false, hasDescription := false, rows := [] }

/-- Column presence lookup (`col in df.columns`). -/
def Frame.hasCol (df : Frame) (c : String) : Bool :=
  if c = "Month" then df.hasMonth
  else if c = "Type" then df.hasType
  else if c = "Category" then df.hasCategory
  else if c = "Amount" then df.hasAmount
  else if c = "Description" then df.hasDescription
  else false

/-- `required_columns = ['Month', 'Type', 'Category', 'Amount']`. -/
def requiredColumns : List String := ["Month", "Type", "Category", "Amount"]

/-- `validate_data_format` (data_loader.py lines 7-27).  Returns
`(is_valid, error_message)`.  The final `try` block applies
`pd.to_numeric(df[Amount], errors=coerce)`, which is a total operation
(coercion maps unparseable cells to NaN instead of raising), so its `except`
branch — the one returning "Amount column must contain numeric values" — is
unreachable and validation then succeeds. -/
def validate_data_format (df : Frame) : Bool × String :=
  if df.rows.isEmpty then
    (false, "File is empty")
  else
    let missing := requiredColumns.filter (fun c => ¬ df.hasCol c)
    if ¬ missing.isEmpty then
      (false, "Missing required columns: " ++ String.intercalate ", " missing)
    else
      (true, "Valid format")

/-- `df_clean['Amount'] = pd.to_numeric(df_clean['Amount'], errors='coerce')`:
the identity on our representation, in which Amount cells already record their
coercion outcome. -/
def coerceAmounts (df : Frame) : Frame := df

/-- `df_clean = df_clean.dropna(subset=['Amount'])`. -/
def dropBadAmounts (df : Frame) : Frame :=
  { df with rows := df.rows.filter (fun r => r.amount.isSome) }

/-- The per-row effect of
`df_clean[col] = df_clean[col].astype(str).str.strip()` for each text column
that is present (`if col in df_clean.columns`). -/
def trimRow (df : Frame) (r : RawRow) : RawRow :=
  { r with
    month := if df.hasMonth then strTrim r.month else r.month,
    typ := if df.hasType then strTrim r.typ else r.typ,
    category := if df.hasCategory then strTrim r.category else r.category }

/-- The text-standardisation loop over `['Month', 'Type', 'Category']`. -/
def trimTextColumns (df : Frame) : Frame :=
  { df with rows := df.rows.map (trimRow df) }

/-- `if 'Description' not in df_clean.columns:
df_clean['Description'] = df_clean['Category']` — runs after trimming, so the
synthesized description is the already-trimmed category. -/
def addDescriptionColumn (df : Frame) : Frame :=
  if df.hasDescription then df
  else
    { df with
      hasDescription := true,
      rows := df.rows.map (fun r => { r with description := r.category }) }

/-- `clean_data` (data_loader.py lines 29-51): coerce amounts, drop rows with
non-numeric amounts, trim text columns, synthesize `Description` if absent.
Total function: the source never raises when the columns it touches exist. -/
def clean_data (df : Frame) : Frame :=
  addDescriptionColumn (trimTextColumns (dropBadAmounts (coerceAmounts df)))

/-- `validate_data_format` followed by `clean_data` on success, or
`pd.DataFrame()` on a validation failure — the tail shared by both the remote
loader and the upload loader. -/
def validateAndClean (df : Frame) : Frame :=
  if (validate_data_format df).1 then clean_data df else emptyFrame

/-- `load_google_sheets_data` (data_loader.py lines 53-68).  The argument is
the outcome of `pd.read_csv(Config.GOOGLE_SHEET_URL)`; the `except` clause of
the source maps any fetch/parse error to `pd.DataFrame()`. -/
def load_google_sheets_data (fetched : Except String Frame) : Frame :=
  match fetched with
  | .error _ => emptyFrame
  | .ok df => validateAndClean df

/-- `MAX_SIZE = 10 * 1024 * 1024` (10MB upload limit). -/
def MAX_SIZE : ℕ := 10 * 1024 * 1024

/-- `MAX_ROWS = 10000` (row-count limit). -/
def MAX_ROWS : ℕ := 10000

/-- An uploaded file as the loader observes it: declared byte size, filename,
and the outcome of parsing it (`pd.read_csv` / `pd.read_excel`), whose raised
exceptions the source catches. -/
structure UploadedFile where
  size : ℕ
  name : String
  parsed : Except String Frame

/-- `if len(df) > MAX_ROWS: df = df.head(MAX_ROWS)`. -/
def truncateRows (df : Frame) : Frame :=
  if df.rows.length > MAX_ROWS then { df with rows := df.rows.take MAX_ROWS }
  else df

/-- Whether the filename dispatches to a parser:
`.csv` to `pd.read_csv`, `.xlsx`/`.xls` to `pd.read_excel`. -/
def supportedName (name : String) : Bool :=
  strEndsWith name ".csv" || strEndsWith name ".xlsx" || strEndsWith name ".xls"

/-- `load_uploaded_file` (data_loader.py lines 70-107): size check, extension
dispatch, row-count truncation, validation, cleaning.  Every failure path
(oversize, unsupported extension, parse error, validation failure) returns
`pd.DataFrame()`; the surrounding `try/except` is modelled by the `.error`
branch, so no exception escapes. -/
def load_uploaded_file (f : UploadedFile) : Frame :=
  if f.size > MAX_SIZE then emptyFrame
  else if supportedName f.name then
    match f.parsed with
    | .error _ => emptyFrame
    | .ok df => validateAndClean (truncateRows df)
  else emptyFrame

/-- One record of the hardcoded demo dataset. -/
def demoRow (m t c d : String) (a : ℚ) : RawRow :=
  { month := m, typ := t, category := c, amount := some a, description := d }

/-- The fixed demo dataset built inline by `load_data_with_fallback`
(data_loader.py lines 245-252): August2025 and September2025, six records
each. -/
def demoFrame : Frame :=
  { hasMonth := true, hasType := true, hasCategory := true,
    hasAmount := true, hasDescription := true,
    rows :=
      [ demoRow "August2025" "Income" "Salary" "Main job" 5000,
        demoRow "August2025" "Income" "Freelance" "Freelance work" 1200,
        demoRow "August2025" "Fixed" "Housing" "Rent" (-1200),
        demoRow "August2025" "Fixed" "Utilities" "Bills" (-400),
        demoRow "August2025" "Variable" "Food" "Groceries" (-550),
        demoRow "August2025" "Variable" "Leisure" "Entertainment" (-220),
        demoRow "September2025" "Income" "Salary" "Main job" 5000,
        demoRow "September2025" "Income" "Freelance" "Freelance work" 1500,
        demoRow "September2025" "Fixed" "Housing" "Rent" (-1200),
        demoRow "September2025" "Fixed" "Utilities" "Bills" (-400),
        demoRow "September2025" "Variable" "Food" "Groceries" (-600),
        demoRow "September2025" "Variable" "Leisure" "Entertainment" (-200) ] }

/-- The `google_sheets`-or-`demo` tail of `load_data_with_fallback`
(data_loader.py lines 237-252), reached when there is no upload or the upload
produced an empty table. -/
def fallbackRemote (remote : Except String Frame) : Frame × String :=
  let df := load_google_sheets_data remote
  if ¬ df.rows.isEmpty then (df, "google_sheets")
  else (demoFrame, "demo")

/-- `load_data_with_fallback` (data_loader.py lines 217-252).  `upload` is the
file the sidebar uploader returned (`none` when the user uploaded nothing);
`remote` is the outcome of fetching the configured sheet, consulted only on
the fallback path. -/
def load_data_with_fallback (upload : Option UploadedFile)
    (remote : Except String Frame) : Frame × String :=
  match upload with
  | some f =>
    let df := load_uploaded_file f
    if ¬ df.rows.isEmpty then (df, "uploaded")
    else fallbackRemote remote
  | none => fallbackRemote remote

/-- `df['Amount'].sum()` over a row list: pandas `sum` skips NaN
(`skipna=True` default), so a `none` amount contributes `0`. -/
def amountsSum (l : List RawRow) : ℚ :=
  (l.map (fun r => (r.amount.getD 0))).sum

/-- Sum of `Amount` over the rows whose `Type` satisfies `p`
(`df[df['Type'] == t]['Amount'].sum()` and the `isin` variant). -/
def sumByType (df : Frame) (p : String → Bool) : ℚ :=
  amountsSum (df.rows.filter (fun r => p r.typ))

/-- `df['Type'].isin(['Fixed', 'Variable'])`. -/
def isExpenseType (t : String) : Bool := t == "Fixed" || t == "Variable"

/-- Python `abs` on a rational, written with an executable case split. -/
def ratAbs (q : ℚ) : ℚ := if q < 0 then -q else q

theorem ratAbs_eq_abs (q : ℚ) : ratAbs q = |q| := by
  unfold ratAbs
  split
  · exact (abs_of_neg (by assumption)).symm
  · exact (abs_of_nonneg (le_of_not_lt (by assumption))).symm

/-- The KPI record returned by `calculate_kpis`. -/
structure KPIs where
  total_income : ℚ
  total_expenses : ℚ
  total_investments : ℚ
  net_income : ℚ
  savings_rate : ℚ
  deriving Repr, DecidableEq

/-- `calculate_kpis` (app.py lines 22-39). -/
def calculate_kpis (df : Frame) : KPIs :=
  let total_income := sumByType df (fun t => t == "Income")
  let total_expenses := sumByType df isExpenseType
  let total_investments := sumByType df (fun t => t == "Investment")
  let net_income := total_income + total_expenses
  let savings_rate := if total_income > 0 then net_income / total_income * 100 else 0
  { total_income := total_income,
    total_expenses := ratAbs total_expenses,
    total_investments := ratAbs total_investments,
    net_income := net_income,
    savings_rate := savings_rate }

/-!
Concrete inputs used by witnesses and counterexamples.
-/

/-- A small well-formed raw table: all four required columns, no
`Description` column, one numeric-amount row (with padded month text) and one
row whose `Amount` cell does not coerce to a number. -/
def sampleRawFrame : Frame :=
  { hasMonth := true, hasType := true, hasCategory := true,
    hasAmount := true, hasDescription := false,
    rows :=
      [ { month := " Jan2025 ", typ := "Income", category := "Salary",
          amount := some 5, description := "" },
        { month := "Jan2025", typ := "Fixed", category := "Rent",
          amount := none, description := "" } ] }

/-- A valid CSV upload carrying `sampleRawFrame`. -/
def sampleUpload : UploadedFile :=
  { size := 100, name := "data.csv", parsed := .ok sampleRawFrame }

/-- An upload one byte over the 10MB limit. -/
def oversizedUpload : UploadedFile :=
  { size := 10 * 1024 * 1024 + 1, name := "data.csv", parsed := .ok sampleRawFrame }

/-!
Resolver claims.
-/

/-- On the fallback path the resolver never produces an empty table: either
the sheet data is non-empty and is returned, or the non-empty demo dataset
is. -/
theorem fallbackRemote_fst_rows_ne_nil (remote : Except String Frame) :
    (fallbackRemote remote).1.rows ≠ [] := by
  unfold fallbackRemote
  cases hr : (load_google_sheets_data remote).rows with
  | nil => simp [hr, demoFrame]
  | cons a l => simp [hr]

/-- C1: with an uploaded file whose loader result is non-empty, the resolver
returns exactly that table labelled "uploaded", and its result does not depend
on the remote fetch outcome (the remote and demo strategies are
short-circuited). -/
theorem upload_shortcircuits_remote (f : UploadedFile)
    (remote remote' : Except String Frame)
    (h : (load_uploaded_file f).rows ≠ []) :
    load_data_with_fallback (some f) remote = (load_uploaded_file f, "uploaded") ∧
    load_data_with_fallback (some f) remote = load_data_with_fallback (some f) remote' := by
  have hne : (load_uploaded_file f).rows.isEmpty = false := by
    cases hr : (load_uploaded_file f).rows with
    | nil => exact absurd hr h
    | cons a l => rfl
  constructor <;> simp [load_data_with_fallback, hne]

/-- C1 witness: a concrete valid upload is returned as "uploaded" while the
remote source is down. -/
theorem upload_shortcircuits_remote_witness :
    (load_uploaded_file sampleUpload).rows ≠ [] ∧
    load_data_with_fallback (some sampleUpload) (.error "network down") =
      (load_uploaded_file sampleUpload, "uploaded") :=
  ⟨by decide,
   (upload_shortcircuits_remote sampleUpload (.error "network down")
      (.ok demoFrame) (by decide)).1⟩

/-- C2: the resolver always returns a non-empty table; the demo dataset is
non-empty; and with no upload and a remote loader yielding an empty table the
result is exactly `(demoFrame, "demo")`. -/
theorem resolver_never_empty (upload : Option UploadedFile)
    (remote : Except String Frame) :
    (load_data_with_fallback upload remote).1.rows ≠ [] ∧
    demoFrame.rows.length = 12 ∧
    ((load_google_sheets_data remote).rows = [] →
      load_data_with_fallback none remote = (demoFrame, "demo")) := by
  refine ⟨?_, by decide, ?_⟩
  · cases upload with
    | none => exact fallbackRemote_fst_rows_ne_nil remote
    | some f =>
      cases hu : (load_uploaded_file f).rows with
      | nil =>
        have : (load_uploaded_file f).rows.isEmpty = true := by simp [hu]
        simpa [load_data_with_fallback, this] using
          fallbackRemote_fst_rows_ne_nil remote
      | cons a l =>
        have : (load_uploaded_file f).rows.isEmpty = false := by simp [hu]
        simp [load_data_with_fallback, this, hu]
  · intro h
    simp [load_data_with_fallback, fallbackRemote, h]

/-- C2 witness: with no upload and an unreachable remote source the resolver
returns the demo dataset. -/
theorem resolver_never_empty_witness :
    (load_data_with_fallback none (.error "unreachable")).1.rows ≠ [] ∧
    load_data_with_fallback none (.error "unreachable") = (demoFrame, "demo") :=
  ⟨(resolver_never_empty none (.error "unreachable")).1,
   (resolver_never_empty none (.error "unreachable")).2.2 rfl⟩

/-- C6 counterexample: when the remote sheet supplies the data the resolver's
label is "google_sheets", which is not one of `uploaded | remote | demo`; in
particular it is not "remote" as the claim states. -/
theorem provenance_label_counterexample :
    ¬ ((load_data_with_fallback none (.ok sampleRawFrame)).2 = "uploaded" ∨
       (load_data_with_fallback none (.ok sampleRawFrame)).2 = "remote" ∨
       (load_data_with_fallback none (.ok sampleRawFrame)).2 = "demo") := by
  decide

/-- C6 (amended): the label is one of exactly "uploaded", "google_sheets",
"demo", and it names the strategy that actually supplied the returned table
(remote-sheet data is labelled "google_sheets"). -/
theorem provenance_labels (upload : Option UploadedFile)
    (remote : Except String Frame) :
    ((load_data_with_fallback upload remote).2 = "uploaded" ∨
     (load_data_with_fallback upload remote).2 = "google_sheets" ∨
     (load_data_with_fallback upload remote).2 = "demo") ∧
    ((load_data_with_fallback upload remote).2 = "uploaded" →
      ∃ f, upload = some f ∧ (load_uploaded_file f).rows ≠ [] ∧
        load_data_with_fallback upload remote = (load_uploaded_file f, "uploaded")) ∧
    ((load_data_with_fallback upload remote).2 = "google_sheets" →
      (load_google_sheets_data remote).rows ≠ [] ∧
        load_data_with_fallback upload remote =
          (load_google_sheets_data remote, "google_sheets")) ∧
    ((load_data_with_fallback upload remote).2 = "demo" →
      load_data_with_fallback upload remote = (demoFrame, "demo")) := by
  have hfb : (load_google_sheets_data remote).rows = [] ∧
        fallbackRemote remote = (demoFrame, "demo") ∨
      (load_google_sheets_data remote).rows ≠ [] ∧
        fallbackRemote remote = (load_google_sheets_data remote, "google_sheets") := by
    cases hr : (load_google_sheets_data remote).rows with
    | nil => exact Or.inl ⟨rfl, by simp [fallbackRemote, hr]⟩
    | cons a l =>
      refine Or.inr ⟨by simp [hr], ?_⟩
      simp [fallbackRemote, hr]
  cases upload with
  | none =>
    rcases hfb with ⟨hrows, heq⟩ | ⟨hrows, heq⟩ <;>
      simp_all [load_data_with_fallback]
  | some f =>
    cases hu : (load_uploaded_file f).rows with
    | nil =>
      have hue : (load_uploaded_file f).rows.isEmpty = true := by simp [hu]
      rcases hfb with ⟨hrows, heq⟩ | ⟨hrows, heq⟩ <;>
        simp_all [load_data_with_fallback]
    | cons a l =>
      have hue : (load_uploaded_file f).rows.isEmpty = false := by simp [hu]
      refine ⟨by simp [load_data_with_fallback, hue], ?_, ?_, ?_⟩ <;>
        intro hlabel <;>
        simp_all [load_data_with_fallback]

/-- C6 witness: with no upload and an unreachable remote the label is "demo"
and the table is the demo dataset. -/
theorem provenance_labels_witness :
    (load_data_with_fallback none (.error "down")).2 = "demo" ∧
    load_data_with_fallback none (.error "down") = (demoFrame, "demo") :=
  ⟨rfl, (provenance_labels none (.error "down")).2.2.2 rfl⟩

/-!
Cleaner claims.
-/

/-- A validation success means the table is non-empty and all four required
columns are present. -/
theorem validate_true_columns (df : Frame)
    (hv : (validate_data_format df).1 = true) :
    df.rows ≠ [] ∧ df.hasMonth = true ∧ df.hasType = true ∧
      df.hasCategory = true ∧ df.hasAmount = true := by
  unfold validate_data_format at hv
  cases hrows : df.rows <;>
    cases hM : df.hasMonth <;> cases hT : df.hasType <;>
    cases hC : df.hasCategory <;> cases hA : df.hasAmount <;>
    simp_all [requiredColumns, Frame.hasCol]

/-- The per-row effect the spec ascribes to the Cleaner on a table with the
four required columns: trim the three text fields, keep the amount, and
populate `description` from the trimmed category when the `Description`
column is absent. -/
def cleanedRowSpec (hasDescCol : Bool) (r : RawRow) : RawRow :=
  { month := strTrim r.month, typ := strTrim r.typ,
    category := strTrim r.category, amount := r.amount,
    description := if hasDescCol then r.description else strTrim r.category }

/-- C3: on a table that passes validation, `clean_data` keeps exactly the
rows whose Amount coerces to a number, in their original relative order, with
text columns trimmed and `Description` synthesized from the (trimmed)
Category when the column was absent; every surviving Amount is numeric, the
output has a `Description` column, and the row count does not grow.
(`clean_data` is a total function of the embedding: the source cannot raise
on a validated table.) -/
theorem clean_data_spec (df : Frame)
    (hv : (validate_data_format df).1 = true) :
    (clean_data df).rows =
      (df.rows.filter (fun r => r.amount.isSome)).map
        (cleanedRowSpec df.hasDescription) ∧
    (∀ r ∈ (clean_data df).rows, r.amount.isSome) ∧
    (clean_data df).hasDescription = true ∧
    (clean_data df).rows.length ≤ df.rows.length := by
  obtain ⟨-, hM, hT, hC, -⟩ := validate_true_columns df hv
  have hrows : (clean_data df).rows =
      (df.rows.filter (fun r => r.amount.isSome)).map
        (cleanedRowSpec df.hasDescription) := by
    cases hD : df.hasDescription <;>
      simp [clean_data, coerceAmounts, dropBadAmounts, trimTextColumns,
        addDescriptionColumn, trimRow, cleanedRowSpec, hM, hT, hC, hD,
        List.map_map, Function.comp]
  refine ⟨hrows, ?_, ?_, ?_⟩
  · intro r hr
    rw [hrows] at hr
    obtain ⟨r₀, hr₀, rfl⟩ := List.mem_map.1 hr
    exact (List.mem_filter.1 hr₀).2
  · cases hD : df.hasDescription <;>
      simp [clean_data, coerceAmounts, dropBadAmounts, trimTextColumns,
        addDescriptionColumn, hD]
  · rw [hrows, List.length_map]
    exact List.length_filter_le _ _

/-- C3 witness: the concrete two-row sample table (one non-numeric amount, no
Description column) cleans to its one numeric row, trimmed, with Description
synthesized. -/
theorem clean_data_spec_witness :
    (validate_data_format sampleRawFrame).1 = true ∧
    ((clean_data sampleRawFrame).rows =
      (sampleRawFrame.rows.filter (fun r => r.amount.isSome)).map
        (cleanedRowSpec sampleRawFrame.hasDescription) ∧
    (∀ r ∈ (clean_data sampleRawFrame).rows, r.amount.isSome) ∧
    (clean_data sampleRawFrame).hasDescription = true ∧
    (clean_data sampleRawFrame).rows.length ≤ sampleRawFrame.rows.length) :=
  ⟨by decide, clean_data_spec sampleRawFrame (by decide)⟩

/-!
Loader claims.
-/

/-- C4: both source loaders degrade every failure to the empty table.  For
the upload loader: oversize, unsupported extension, parse error, and
validation failure all yield `pd.DataFrame()`; for the remote loader:
fetch/parse error and validation failure likewise.  Both are total functions
of the embedding (the source's `try/except` is the `.error` branch), so no
exception reaches the caller, which can only observe the returned frame. -/
theorem loaders_fail_to_empty (f : UploadedFile)
    (fetched : Except String Frame) :
    (f.size > MAX_SIZE → load_uploaded_file f = emptyFrame) ∧
    (supportedName f.name = false → load_uploaded_file f = emptyFrame) ∧
    (∀ e, f.parsed = .error e → load_uploaded_file f = emptyFrame) ∧
    (∀ df, f.parsed = .ok df →
      (validate_data_format (truncateRows df)).1 = false →
      load_uploaded_file f = emptyFrame) ∧
    (∀ e, fetched = .error e → load_google_sheets_data fetched = emptyFrame) ∧
    (∀ df, fetched = .ok df → (validate_data_format df).1 = false →
      load_google_sheets_data fetched = emptyFrame) := by
  refine ⟨?_, ?_, ?_, ?_, ?_, ?_⟩
  · intro h
    simp [load_uploaded_file, h]
  · intro h
    by_cases hs : f.size > MAX_SIZE <;> simp [load_uploaded_file, h, hs]
  · intro e he
    by_cases hs : f.size > MAX_SIZE
    · simp [load_uploaded_file, hs]
    · by_cases hn : supportedName f.name <;>
        simp [load_uploaded_file, hs, hn, he]
  · intro df hdf hval
    by_cases hs : f.size > MAX_SIZE
    · simp [load_uploaded_file, hs]
    · by_cases hn : supportedName f.name <;>
        simp [load_uploaded_file, hs, hn, hdf, validateAndClean, hval]
  · intro e he
    simp [load_google_sheets_data, he]
  · intro df hdf hval
    simp [load_google_sheets_data, hdf, validateAndClean, hval]

/-- C4 witness: a concrete oversized upload and a concrete failed fetch both
produce the empty table. -/
theorem loaders_fail_to_empty_witness :
    oversizedUpload.size > MAX_SIZE ∧
    load_uploaded_file oversizedUpload = emptyFrame ∧
    load_google_sheets_data (.error "http 500") = emptyFrame :=
  ⟨by decide,
   (loaders_fail_to_empty oversizedUpload (.error "http 500")).1 (by decide),
   (loaders_fail_to_empty oversizedUpload (.error "http 500")).2.2.2.2.1
      "http 500" rfl⟩

/-- C9: an upload within the byte limit that parses to more than `MAX_ROWS`
rows is not rejected: the loader behaves exactly as if the parser had
returned the first `MAX_ROWS` rows (validation and cleaning are applied to
that truncated table), the retained prefix has exactly `MAX_ROWS` rows, and
it agrees with the original table position by position. -/
theorem upload_truncates_large_files (f : UploadedFile) (df : Frame)
    (hsize : ¬ f.size > MAX_SIZE) (hname : supportedName f.name = true)
    (hparse : f.parsed = .ok df) (hrows : df.rows.length > MAX_ROWS) :
    load_uploaded_file f =
      validateAndClean { df with rows := df.rows.take MAX_ROWS } ∧
    (df.rows.take MAX_ROWS).length = MAX_ROWS ∧
    (∀ i, i < MAX_ROWS → (df.rows.take MAX_ROWS)[i]? = df.rows[i]?) := by
  refine ⟨?_, ?_, ?_⟩
  · simp [load_uploaded_file, hsize, hname, hparse, truncateRows, hrows]
  · simp only [List.length_take]
    omega
  · intro i hi
    exact List.getElem?_take_of_lt hi

/-- A well-formed row used to build a large upload. -/
def fillerRow : RawRow :=
  { month := "Jan2025", typ := "Income", category := "Salary",
    amount := some 1, description := "" }

/-- A parsed table of 10001 identical well-formed rows. -/
def bigFrame : Frame :=
  { hasMonth := true, hasType := true, hasCategory := true,
    hasAmount := true, hasDescription := false,
    rows := List.replicate 10001 fillerRow }

/-- A small CSV upload whose parsed table has 10001 rows. -/
def bigUpload : UploadedFile :=
  { size := 512, name := "big.csv", parsed := .ok bigFrame }

/-- The 10001-row table exceeds the row limit. -/
theorem bigFrame_rows_gt_max : bigFrame.rows.length > MAX_ROWS := by
  show (List.replicate 10001 fillerRow).length > MAX_ROWS
  rw [List.length_replicate]
  decide

/-- C9 witness: the 10001-row upload is processed as its first 10000 rows. -/
theorem upload_truncates_large_files_witness :
    (¬ bigUpload.size > MAX_SIZE ∧ supportedName bigUpload.name = true ∧
      bigFrame.rows.length > MAX_ROWS) ∧
    (load_uploaded_file bigUpload =
      validateAndClean { bigFrame with rows := bigFrame.rows.take MAX_ROWS } ∧
    (bigFrame.rows.take MAX_ROWS).length = MAX_ROWS ∧
    (∀ i, i < MAX_ROWS →
      (bigFrame.rows.take MAX_ROWS)[i]? = bigFrame.rows[i]?)) :=
  ⟨⟨by decide, by decide, bigFrame_rows_gt_max⟩,
   upload_truncates_large_files bigUpload bigFrame (by decide) (by decide) rfl
     bigFrame_rows_gt_max⟩

/-!
Validator claim C5.  The source's non-numeric-amount check is
`pd.to_numeric(df['Amount'], errors='coerce')` inside `try/except`: with
`errors='coerce'` the conversion never raises (unparseable cells become NaN),
so the `except` branch that would return the distinct
"Amount column must contain numeric values" failure is unreachable, and
validation succeeds on a table with non-numeric amounts.
-/

/-- A non-empty table with all four required columns whose single row has a
non-numeric `Amount` cell (one that pandas coerces to NaN, e.g. "abc"). -/
def nonNumericAmountFrame : Frame :=
  { hasMonth := true, hasType := true, hasCategory := true,
    hasAmount := true, hasDescription := false,
    rows :=
      [ { month := "Jan2025", typ := "Income", category := "Salary",
          amount := none, description := "" } ] }

/-- C5: the code accepts a table containing a non-numeric Amount with the
success message "Valid format" instead of the distinct NonNumericAmount
failure the spec requires — the dead `except` branch never fires. -/
theorem validate_accepts_non_numeric_amount :
    (∃ r ∈ nonNumericAmountFrame.rows, r.amount = none) ∧
    validate_data_format nonNumericAmountFrame = (true, "Valid format") := by
  decide

/-!
KPI claims.
-/

/-- The frame with all rows of Type `Investment` removed. -/
def dropInvestmentRows (df : Frame) : Frame :=
  { df with rows := df.rows.filter (fun r => !(r.typ == "Investment")) }

/-- Removing `Investment` rows leaves any type-selected amount sum unchanged
when the selecting predicate excludes "Investment". -/
theorem sumByType_dropInvestmentRows (df : Frame) (p : String → Bool)
    (hp : ∀ t, p t = true → t ≠ "Investment") :
    sumByType (dropInvestmentRows df) p = sumByType df p := by
  unfold sumByType dropInvestmentRows amountsSum
  simp only
  rw [List.filter_filter]
  congr 1
  congr 1
  apply List.filter_congr
  intro r _
  cases hpr : p r.typ
  · simp
  · have hne : r.typ ≠ "Investment" := hp _ hpr
    simp [hpr, hne]

/-- A one-row table with a positive `Fixed` amount (a garbage-in sign, which
the cleaner passes through). -/
def positiveExpenseFrame : Frame :=
  { hasMonth := true, hasType := true, hasCategory := true,
    hasAmount := true, hasDescription := true,
    rows :=
      [ { month := "Jan2025", typ := "Fixed", category := "Refund",
          amount := some 100, description := "Rent refund" } ] }

/-- C7 counterexample: on a table whose Fixed/Variable raw sum is positive,
netIncome (= 100) differs from totalIncome - totalExpenses (= -100), so the
unqualified "for every table" equality of the claim fails on the code. -/
theorem net_income_counterexample :
    (calculate_kpis positiveExpenseFrame).net_income ≠
      (calculate_kpis positiveExpenseFrame).total_income -
        (calculate_kpis positiveExpenseFrame).total_expenses := by
  simp [calculate_kpis, sumByType, amountsSum, positiveExpenseFrame,
    isExpenseType, ratAbs]
  norm_num

/-- C7 (amended): netIncome always equals totalIncome plus the raw
Fixed/Variable sum; when that raw sum is non-positive (the stored-as-negative
convention) it also equals totalIncome minus totalExpenses; and Investment
rows never affect netIncome. -/
theorem net_income_relation (df : Frame) :
    (calculate_kpis df).net_income =
      (calculate_kpis df).total_income + sumByType df isExpenseType ∧
    (sumByType df isExpenseType ≤ 0 →
      (calculate_kpis df).net_income =
        (calculate_kpis df).total_income - (calculate_kpis df).total_expenses) ∧
    (calculate_kpis (dropInvestmentRows df)).net_income =
      (calculate_kpis df).net_income := by
  refine ⟨rfl, ?_, ?_⟩
  · intro h
    show sumByType df (fun t => t == "Income") + sumByType df isExpenseType =
      sumByType df (fun t => t == "Income") - ratAbs (sumByType df isExpenseType)
    rw [ratAbs]
    split
    · ring
    · have h0 : sumByType df isExpenseType = 0 :=
        le_antisymm h (le_of_not_lt (by assumption))
      rw [h0]
      ring
  · show sumByType (dropInvestmentRows df) (fun t => t == "Income") +
        sumByType (dropInvestmentRows df) isExpenseType =
      sumByType df (fun t => t == "Income") + sumByType df isExpenseType
    rw [sumByType_dropInvestmentRows df _ (by
        intro t ht
        have : t = "Income" := by simpa using ht
        simp [this]),
      sumByType_dropInvestmentRows df _ (by
        intro t ht
        rcases (by simpa [isExpenseType] using ht : t = "Fixed" ∨ t = "Variable")
          with h' | h' <;> simp [h'])]

/-- The demo dataset's raw Fixed/Variable sum is -4770, in particular
non-positive. -/
theorem demo_expense_sum_nonpos : sumByType demoFrame isExpenseType ≤ 0 := by
  simp [sumByType, amountsSum, demoFrame, demoRow, isExpenseType]
  norm_num

/-- C7 witness: the relations instantiated at the demo dataset. -/
theorem net_income_relation_witness :
    sumByType demoFrame isExpenseType ≤ 0 ∧
    ((calculate_kpis demoFrame).net_income =
      (calculate_kpis demoFrame).total_income +
        sumByType demoFrame isExpenseType ∧
    (calculate_kpis demoFrame).net_income =
      (calculate_kpis demoFrame).total_income -
        (calculate_kpis demoFrame).total_expenses ∧
    (calculate_kpis (dropInvestmentRows demoFrame)).net_income =
      (calculate_kpis demoFrame).net_income) :=
  ⟨demo_expense_sum_nonpos,
   (net_income_relation demoFrame).1,
   (net_income_relation demoFrame).2.1 demo_expense_sum_nonpos,
   (net_income_relation demoFrame).2.2⟩

/-- C8 counterexample: the demo dataset's totalExpenses is not the 4150 the
claim asserts. -/
theorem demo_kpis_counterexample :
    (calculate_kpis demoFrame).total_expenses ≠ 4150 := by
  simp [calculate_kpis, sumByType, amountsSum, demoFrame, demoRow,
    isExpenseType, ratAbs]
  norm_num

/-- C8 (amended): on the fixed demo dataset the KPI calculator yields
totalIncome = 12700, totalExpenses = 4770, netIncome = 7930 and
savingsRate = 7930/127 ≈ 62.4% (strictly between 62 and 63). -/
theorem demo_kpis :
    (calculate_kpis demoFrame).total_income = 12700 ∧
    (calculate_kpis demoFrame).total_expenses = 4770 ∧
    (calculate_kpis demoFrame).net_income = 7930 ∧
    (calculate_kpis demoFrame).savings_rate = 7930 / 127 ∧
    62 < (calculate_kpis demoFrame).savings_rate ∧
    (calculate_kpis demoFrame).savings_rate < 63 := by
  refine ⟨?_, ?_, ?_, ?_, ?_, ?_⟩ <;>
    simp [calculate_kpis, sumByType, amountsSum, demoFrame, demoRow,
      isExpenseType, ratAbs] <;>
    norm_num

/-!
Frame-effect claim C10.  `clean_data` opens with `df_clean = df.copy()` and
every later statement of the function body assigns into `df_clean` only, so
the caller's frame is untouched.  The body is embedded as a sequence of
transformers over a two-frame state (the argument and the working copy).
-/

/-- The mutable state during a `clean_data` call: the caller's argument `df`
and the working copy `df_clean`. -/
structure CleanState where
  df : Frame
  df_clean : Frame
  deriving Repr, DecidableEq

/-- `df_clean = df.copy()` — pandas `copy()` yields an independent frame. -/
def stmtCopy (df : Frame) : CleanState := { df := df, df_clean := df }

/-- The Amount-coercion assignment, targeting `df_clean` only. -/
def stmtCoerce (s : CleanState) : CleanState :=
  { s with df_clean := coerceAmounts s.df_clean }

/-- The `dropna` assignment, targeting `df_clean` only. -/
def stmtDropna (s : CleanState) : CleanState :=
  { s with df_clean := dropBadAmounts s.df_clean }

/-- The text-trimming loop, targeting `df_clean` only. -/
def stmtTrim (s : CleanState) : CleanState :=
  { s with df_clean := trimTextColumns s.df_clean }

/-- The Description-synthesis assignment, targeting `df_clean` only. -/
def stmtAddDescColumn (s : CleanState) : CleanState :=
  { s with df_clean := addDescriptionColumn s.df_clean }

/-- The statement sequence of `clean_data`'s body, started from the caller's
argument. -/
def runCleanBody (df : Frame) : CleanState :=
  stmtAddDescColumn (stmtTrim (stmtDropna (stmtCoerce (stmtCopy df))))

/-- C10: running the body of `clean_data` leaves the caller's frame — flags,
rows and all cell values — exactly as it was, while the working copy ends as
the returned cleaned table. -/
theorem clean_data_does_not_mutate (df : Frame) :
    (runCleanBody df).df = df ∧
    (runCleanBody df).df.rows = df.rows ∧
    (runCleanBody df).df_clean = clean_data df :=
  ⟨rfl, rfl, rfl⟩

end FinanceDashboard
